import Mathlib

/-!
Shallow embedding of `src/arb_tracker.py` (ARB token all-time-low tracker).

Prices are Python floats in the source; they are modelled as rationals `ℚ`
so that the comparison and arithmetic logic can be reasoned about exactly.
Network and file-system nondeterminism (the outcome of `requests.get`,
`requests.post` and the file write) enters the model as explicit parameters
of the embedded functions.
-/

namespace ArbTracker

/-- Prices (Python `float` values in the source) are modelled as rationals. -/
abbrev Price := ℚ

/-- Content of the persisted file `atl_data.json`.
`absent` models a missing file, `invalid` a file whose bytes fail to parse as
JSON (for example an empty or partially written file), and `record p` a valid
JSON object whose `atl_price` field is `p`.  The `atl_timestamp` field also
present in the real file is the wall-clock time of the write; the program
never reads it back (`main` only uses `atl_data.get("atl_price")`), so the
model omits it. -/
inductive FileContent where
  | absent
  | invalid
  | record (atl_price : Price)
deriving DecidableEq, Repr

/-- Embedding of `load_atl_data` (src/arb_tracker.py lines 50-58): a missing
file, or a `json.JSONDecodeError`/`IOError` while reading, degrades to the
default `{"atl_price": None, "atl_timestamp": None}`; the result is the
`atl_price` field that `main` extracts from the returned dict. -/
def load_atl_data : FileContent → Option Price
  | .absent => none
  | .invalid => none
  | .record p => some p

/-- Embedding of the completed effect of `save_atl_data(price)`
(src/arb_tracker.py lines 61-69): the file is opened with mode `"w"` and the
record is written, so afterwards the file holds exactly the new record,
regardless of what it held before (overwrite, not append). -/
def save_atl_data (price : Price) : FileContent := .record price

/-- States the on-disk file passes through while `save_atl_data(price)` runs,
starting from previous content `prev`: `open(ATL_DATA_FILE, "w")` first
truncates the file (an empty file is not valid JSON, hence `invalid`), and
`json.dump` then writes the full record.  An abrupt process termination can
leave the file in any of these states; there is no temporary file or atomic
rename in the source. -/
def save_atl_steps (prev : FileContent) (price : Price) : List FileContent :=
  [prev, .invalid, .record price]

/-- The Telegram message assembled by `notify_new_atl`
(src/arb_tracker.py lines 107-126).  The source formats it as an HTML string
with prices rendered to six decimal places; the model keeps the header text
and the raw numeric fields of each branch. -/
structure TgMessage where
  header : String
  price : Price
  previousAtl : Option Price
  dropPercent : Option Price
deriving DecidableEq, Repr

/-- Embedding of the message construction in `notify_new_atl(current_price,
previous_atl)` (src/arb_tracker.py lines 107-121): with no previous ATL the
message is the initialization message carrying only the starting price;
otherwise it is the new-low message carrying the new price, the previous ATL
and `drop_percent = ((previous_atl - current_price) / previous_atl) * 100`. -/
def notify_new_atl (current_price : Price) (previous_atl : Option Price) :
    TgMessage :=
  match previous_atl with
  | none =>
      { header := "ARB TRACKER INITIALIZED"
        price := current_price
        previousAtl := none
        dropPercent := none }
  | some prev =>
      let drop_percent := ((prev - current_price) / prev) * 100
      { header := "NEW ARB ALL-TIME LOW!"
        price := current_price
        previousAtl := some prev
        dropPercent := some drop_percent }

/-- Embedding of `check_price(atl_price)` (src/arb_tracker.py lines 92-104).
The call to `get_arb_price()` inside it is a network fetch; its outcome is
passed in as `fetched` (`none` models the `None` returned after a
`RequestException`, `KeyError` or `ValueError`).  Returns
`(current_price, is_new_atl)` exactly as the source does: `(None, False)` on
a failed fetch, a new ATL when `atl_price is None or current_price <
atl_price`, and no change otherwise. -/
def check_price (atl_price : Option Price) (fetched : Option Price) :
    Option Price × Bool :=
  match fetched with
  | none => (none, false)
  | some current_price =>
    match atl_price with
    | none => (some current_price, true)
    | some a =>
      if current_price < a then (some current_price, true)
      else (some current_price, false)

/-- An uncaught Python exception escaping a loop iteration. -/
inductive PyError where
  | ioError
deriving DecidableEq, Repr

/-- The mutable state of `main`'s loop (src/arb_tracker.py lines 154-184):
the in-memory `atl_price`, the persisted file, and the three counters. -/
structure LoopState where
  atl_price : Option Price
  file : FileContent
  checks : ℕ
  errors : ℕ
  new_atls : ℕ
deriving DecidableEq, Repr

set_option linter.unusedVariables false in
/-- One iteration of the `while` loop in `main` (src/arb_tracker.py lines
167-190).  `fetched` is the outcome of the network fetch inside
`check_price`; `notify_ok` is the outcome of `send_telegram_message` inside
`notify_new_atl` — in the source that boolean only selects which line is
printed (lines 123-126), so it does not influence state or control flow;
`save_raises` says whether the file write in `save_atl_data` raises an
`IOError`.  `main` installs no exception handler around the loop body, so a
raised `IOError` propagates out of the iteration as `.error`.  On a new ATL
the source notifies first (line 182), then updates `atl_price` and saves
(lines 183-184).  The returned message, when present, is the message passed
to `send_telegram_message` this iteration. -/
def loop_cycle (s : LoopState) (fetched : Option Price) (notify_ok : Bool)
    (save_raises : Bool) : Except PyError (LoopState × Option TgMessage) :=
  let checks := s.checks + 1
  match check_price s.atl_price fetched with
  | (none, _) =>
      .ok ({ s with checks := checks, errors := s.errors + 1 }, none)
  | (some current_price, is_new_atl) =>
    if is_new_atl then
      let msg := notify_new_atl current_price s.atl_price
      if save_raises then
        .error .ioError
      else
        .ok ({ s with
                checks := checks
                atl_price := some current_price
                file := save_atl_data current_price
                new_atls := s.new_atls + 1 }, some msg)
    else
      .ok ({ s with checks := checks }, none)

/-- Iterating `loop_cycle` over a list of per-cycle inputs
`(fetched, notify_ok, save_raises)`; an uncaught exception in any iteration
ends the run with that error, as it would kill the process. -/
def run_loop : LoopState → List (Option Price × Bool × Bool) →
    Except PyError LoopState
  | s, [] => .ok s
  | s, (f, n, sr) :: rest =>
    match loop_cycle s f n sr with
    | .error e => .error e
    | .ok (s', _) => run_loop s' rest

/-! Helper lemmas computing `loop_cycle` in each of its four cases. -/

/-- A failed fetch: the cycle only bumps the check and error counters. -/
theorem loop_cycle_fetch_failed (s : LoopState) (n sr : Bool) :
    loop_cycle s none n sr =
      .ok ({ s with checks := s.checks + 1, errors := s.errors + 1 }, none) :=
  rfl

/-- A fetched price at or above the stored ATL: no state change beyond the
check counter and no message. -/
theorem loop_cycle_no_new (s : LoopState) (a p : Price) (n sr : Bool)
    (hs : s.atl_price = some a) (h : a ≤ p) :
    loop_cycle s (some p) n sr = .ok ({ s with checks := s.checks + 1 }, none) := by
  simp [loop_cycle, check_price, hs, not_lt.mpr h]

/-- A strictly lower fetched price with a successful save: the ATL and the
file are updated to the new price and the new-low message is sent. -/
theorem loop_cycle_new_low (s : LoopState) (a p : Price) (n : Bool)
    (hs : s.atl_price = some a) (h : p < a) :
    loop_cycle s (some p) n false =
      .ok ({ s with
              checks := s.checks + 1
              atl_price := some p
              file := .record p
              new_atls := s.new_atls + 1 },
           some (notify_new_atl p (some a))) := by
  simp [loop_cycle, check_price, hs, h, save_atl_data]

/-- A strictly lower fetched price whose save raises: the exception escapes
the iteration. -/
theorem loop_cycle_new_low_raises (s : LoopState) (a p : Price) (n : Bool)
    (hs : s.atl_price = some a) (h : p < a) :
    loop_cycle s (some p) n true = .error .ioError := by
  simp [loop_cycle, check_price, hs, h]

/-- First run: with no stored ATL, a successful fetch initializes the ATL,
persists it and sends the initialization message. -/
theorem loop_cycle_init (s : LoopState) (p : Price) (n : Bool)
    (hs : s.atl_price = none) :
    loop_cycle s (some p) n false =
      .ok ({ s with
              checks := s.checks + 1
              atl_price := some p
              file := .record p
              new_atls := s.new_atls + 1 },
           some (notify_new_atl p none)) := by
  simp [loop_cycle, check_price, hs, save_atl_data]

/-- Claim C1: once an ATL is established (`s.atl_price = some a`), after the loop
processes any sequence of successfully fetched prices `ps` (with saves
succeeding), the tracked ATL price equals the minimum of the initial stored
ATL `a` and all prices fetched so far. -/
theorem C1_atl_tracks_minimum (s : LoopState) (a : Price) (ps : List Price)
    (hs : s.atl_price = some a) :
    ∃ s', run_loop s (ps.map fun p => (some p, true, false)) = .ok s' ∧
      s'.atl_price = some (ps.foldl min a) := by
  induction ps generalizing s a with
  | nil => exact ⟨s, rfl, by simpa using hs⟩
  | cons p ps ih =>
    simp only [List.map_cons, List.foldl_cons, run_loop]
    rcases lt_or_le p a with h | h
    · rw [loop_cycle_new_low s a p true hs h, min_eq_right h.le]
      exact ih _ p rfl
    · rw [loop_cycle_no_new s a p true false hs h, min_eq_left h]
      exact ih _ a hs

theorem C1_witness :
    (⟨some 5, .record 5, 0, 0, 0⟩ : LoopState).atl_price = some 5 ∧
    (∃ s', run_loop ⟨some 5, .record 5, 0, 0, 0⟩
        (([7, 3, 4] : List Price).map fun p => (some p, true, false)) = .ok s' ∧
      s'.atl_price = some (([7, 3, 4] : List Price).foldl min 5)) ∧
    ([7, 3, 4] : List Price).foldl min 5 = 3 :=
  ⟨rfl, C1_atl_tracks_minimum _ 5 [7, 3, 4] rfl, by decide⟩

/-- Claim C2: the ATL price is monotonically non-increasing — every completed loop
iteration starting from a tracked ATL `a` either leaves it unchanged or
replaces it with a strictly smaller fetched price. -/
theorem C2_atl_monotone (s s' : LoopState) (a : Price) (f : Option Price)
    (n sr : Bool) (m : Option TgMessage)
    (hs : s.atl_price = some a) (h : loop_cycle s f n sr = .ok (s', m)) :
    s'.atl_price = some a ∨
      ∃ p, f = some p ∧ p < a ∧ s'.atl_price = some p := by
  cases f with
  | none =>
    rw [loop_cycle_fetch_failed] at h
    simp only [Except.ok.injEq, Prod.mk.injEq] at h
    left
    rw [← h.1]
    exact hs
  | some p =>
    rcases lt_or_le p a with h' | h'
    · cases sr with
      | true => rw [loop_cycle_new_low_raises s a p n hs h'] at h; exact absurd h (by simp)
      | false =>
        rw [loop_cycle_new_low s a p n hs h'] at h
        simp only [Except.ok.injEq, Prod.mk.injEq] at h
        right
        exact ⟨p, rfl, h', by rw [← h.1]⟩
    · rw [loop_cycle_no_new s a p n sr hs h'] at h
      simp only [Except.ok.injEq, Prod.mk.injEq] at h
      left
      rw [← h.1]
      exact hs

theorem C2_witness :
    (⟨some 5, .record 5, 0, 0, 0⟩ : LoopState).atl_price = some 5 ∧
    ((⟨some 3, .record 3, 1, 0, 1⟩ : LoopState).atl_price = some 5 ∨
      ∃ p, (some (3 : Price)) = some p ∧ p < 5 ∧
        (⟨some 3, .record 3, 1, 0, 1⟩ : LoopState).atl_price = some p) :=
  ⟨rfl, C2_atl_monotone ⟨some 5, .record 5, 0, 0, 0⟩ ⟨some 3, .record 3, 1, 0, 1⟩
    5 (some 3) true false (some (notify_new_atl 3 (some 5))) rfl
    (loop_cycle_new_low ⟨some 5, .record 5, 0, 0, 0⟩ 5 3 true rfl (by norm_num))⟩

/-- Claim C3: equality is not a new low, and the no-change path is idempotent —
for a stored ATL `a` and fetched price `p ≥ a` the decision is no-change
(no persistence write, no notification), and a second evaluation of the same
pair again yields no-change with no write and no message. -/
theorem C3_geq_no_change_idempotent (s : LoopState) (a p : Price)
    (n sr n' sr' : Bool) (hs : s.atl_price = some a) (h : a ≤ p) :
    check_price (some a) (some p) = (some p, false) ∧
    ∃ s1, loop_cycle s (some p) n sr = .ok (s1, none) ∧
      s1.atl_price = some a ∧ s1.file = s.file ∧
      ∃ s2, loop_cycle s1 (some p) n' sr' = .ok (s2, none) ∧
        s2.atl_price = some a ∧ s2.file = s.file := by
  refine ⟨by simp [check_price, not_lt.mpr h], ?_⟩
  refine ⟨_, loop_cycle_no_new s a p n sr hs h, hs, rfl, ?_⟩
  exact ⟨_, loop_cycle_no_new _ a p n' sr' hs h, hs, rfl⟩

theorem C3_witness :
    (⟨some 100, .record 100, 0, 0, 0⟩ : LoopState).atl_price = some 100 ∧
    (100 : Price) ≤ 100 ∧
    (check_price (some 100) (some 100) = (some 100, false) ∧
      ∃ s1, loop_cycle ⟨some 100, .record 100, 0, 0, 0⟩ (some 100) true false =
          .ok (s1, none) ∧
        s1.atl_price = some 100 ∧
        s1.file = (⟨some 100, .record 100, 0, 0, 0⟩ : LoopState).file ∧
        ∃ s2, loop_cycle s1 (some 100) true false = .ok (s2, none) ∧
          s2.atl_price = some 100 ∧
          s2.file = (⟨some 100, .record 100, 0, 0, 0⟩ : LoopState).file) :=
  ⟨rfl, le_refl _,
    C3_geq_no_change_idempotent _ 100 100 true false true false rfl (le_refl _)⟩

/-- Claim C4: first-run initialization — with no stored ATL, the first successfully
fetched price `p` is judged a new ATL, becomes the stored ATL exactly
(in memory and in the file), and the resulting notification reports no
previous ATL value (no previous price, no drop). -/
theorem C4_first_run_initializes (s : LoopState) (p : Price) (n : Bool)
    (hs : s.atl_price = none) :
    check_price none (some p) = (some p, true) ∧
    ∃ s', loop_cycle s (some p) n false =
        .ok (s', some (notify_new_atl p none)) ∧
      s'.atl_price = some p ∧ s'.file = .record p ∧
      (notify_new_atl p none).previousAtl = none ∧
      (notify_new_atl p none).dropPercent = none :=
  ⟨rfl, _, loop_cycle_init s p n hs, rfl, rfl, rfl, rfl⟩

theorem C4_witness :
    (⟨none, .absent, 0, 0, 0⟩ : LoopState).atl_price = none ∧
    (check_price none (some 2) = (some 2, true) ∧
      ∃ s', loop_cycle ⟨none, .absent, 0, 0, 0⟩ (some 2) true false =
          .ok (s', some (notify_new_atl 2 none)) ∧
        s'.atl_price = some 2 ∧ s'.file = .record 2 ∧
        (notify_new_atl (2 : Price) none).previousAtl = none ∧
        (notify_new_atl (2 : Price) none).dropPercent = none) :=
  ⟨rfl, C4_first_run_initializes ⟨none, .absent, 0, 0, 0⟩ 2 true rfl⟩

/-- Claim C5: a failed notification never blocks persistence — on a strictly lower
fetched price, for every outcome `n` of the Telegram send (in particular a
failed one), the new lower price is written to the file, so a subsequent
`load_atl_data` returns the updated value. -/
theorem C5_notify_failure_still_persists (s : LoopState) (a p : Price)
    (n : Bool) (hs : s.atl_price = some a) (h : p < a) :
    ∃ s', loop_cycle s (some p) n false =
        .ok (s', some (notify_new_atl p (some a))) ∧
      s'.file = .record p ∧ load_atl_data s'.file = some p ∧
      s'.atl_price = some p :=
  ⟨_, loop_cycle_new_low s a p n hs h, rfl, rfl, rfl⟩

theorem C5_witness :
    (⟨some 100, .record 100, 0, 0, 0⟩ : LoopState).atl_price = some 100 ∧
    (90 : Price) < 100 ∧
    ∃ s', loop_cycle ⟨some 100, .record 100, 0, 0, 0⟩ (some 90) false false =
        .ok (s', some (notify_new_atl 90 (some 100))) ∧
      s'.file = .record 90 ∧ load_atl_data s'.file = some 90 ∧
      s'.atl_price = some 90 :=
  ⟨rfl, by norm_num,
    C5_notify_failure_still_persists ⟨some 100, .record 100, 0, 0, 0⟩ 100 90
      false rfl (by norm_num)⟩

/-- Claim C6: the claim says a storage write failure is surfaced but does not crash
the loop; the code has no handler — evaluated at a concrete failing input
(stored ATL 2, fetched price 1, the file write raising `IOError`), the loop
iteration ends in an uncaught error that propagates out of `main`. -/
theorem C6_persist_error_escapes_loop :
    loop_cycle ⟨some 2, .record 2, 0, 0, 0⟩ (some 1) true true =
      .error .ioError :=
  loop_cycle_new_low_raises ⟨some 2, .record 2, 0, 0, 0⟩ 2 1 true rfl (by norm_num)

/-- Claim C7, counterexample: the write in `save_atl_data` is not atomic — the
truncated (invalid) file state is reachable during a save from previous
record 5 to new price 3, and a load in that state returns neither the
previous record 5 nor the new record 3 (it degrades to absent). -/
theorem C7_counterexample :
    FileContent.invalid ∈ save_atl_steps (.record 5) 3 ∧
    load_atl_data .invalid ≠ some (5 : Price) ∧
    load_atl_data .invalid ≠ some (3 : Price) := by
  refine ⟨by simp [save_atl_steps], by simp [load_atl_data], by simp [load_atl_data]⟩

/-- Claim C7, amended: the write overwrites rather than appends (the final file
state is the new record, independent of the previous content) and a load
after a completed save returns the new record; but the write is not atomic —
a reader interrupted mid-save observes a state whose load yields the previous
content's value, the new value, or `none` (the file degraded to absent),
the last arising from the truncated intermediate state. -/
theorem C7_overwrite_not_atomic (prev : FileContent) (p : Price) :
    (save_atl_steps prev p).getLast? = some (.record p) ∧
    load_atl_data (save_atl_data p) = some p ∧
    (∀ c, c ∈ save_atl_steps prev p →
      load_atl_data c = load_atl_data prev ∨ load_atl_data c = some p ∨
      load_atl_data c = none) := by
  refine ⟨rfl, rfl, ?_⟩
  intro c hc
  simp only [save_atl_steps, List.mem_cons, List.not_mem_nil, or_false] at hc
  rcases hc with rfl | rfl | rfl
  · exact Or.inl rfl
  · exact Or.inr (Or.inr rfl)
  · exact Or.inr (Or.inl rfl)

theorem C7_witness :
    load_atl_data .invalid = load_atl_data (.record 5) ∨
    load_atl_data .invalid = some (3 : Price) ∨
    load_atl_data .invalid = none :=
  (C7_overwrite_not_atomic (.record 5) 3).2.2 .invalid (by simp [save_atl_steps])

/-- Claim C8: a failed price fetch leaves the tracked ATL and the file unchanged,
sends no notification, raises nothing, increments the error counter and not
the new-ATL counter (the check counter advances as it does on every cycle),
and never turns the failure into a price update. -/
theorem C8_failed_fetch_skips_cycle (s : LoopState) (n sr : Bool) :
    ∃ s', loop_cycle s none n sr = .ok (s', none) ∧
      s'.atl_price = s.atl_price ∧ s'.file = s.file ∧
      s'.errors = s.errors + 1 ∧ s'.new_atls = s.new_atls ∧
      s'.checks = s.checks + 1 :=
  ⟨_, loop_cycle_fetch_failed s n sr, rfl, rfl, rfl, rfl, rfl⟩

/-- Claim C9: the drop percentage reported on a new low equals
`(previous ATL − current price) / previous ATL × 100`; for previous ATL 100
and fetched price 90 the cycle stores the new record with price 90 and the
notification carries a drop of exactly 10 percent. -/
theorem C9_drop_percent_formula :
    (∀ prev p : Price,
      (notify_new_atl p (some prev)).dropPercent =
        some (((prev - p) / prev) * 100)) ∧
    loop_cycle ⟨some 100, .record 100, 0, 0, 0⟩ (some 90) true false =
      .ok (⟨some 90, .record 90, 1, 0, 1⟩, some (notify_new_atl 90 (some 100))) ∧
    (notify_new_atl (90 : Price) (some 100)).dropPercent = some 10 := by
  refine ⟨fun prev p => rfl,
    loop_cycle_new_low ⟨some 100, .record 100, 0, 0, 0⟩ 100 90 true rfl (by norm_num),
    ?_⟩
  simp only [notify_new_atl]
  norm_num

/-- Claim C10: the program implements the notifiable first-run variant — when the
stored ATL is absent, the first successful fetch triggers a notification
attempt whose message is headed "ARB TRACKER INITIALIZED" and carries the
starting ATL, in addition to persisting the record; this holds for every
outcome `n` of the send. -/
theorem C10_init_sends_notification (s : LoopState) (p : Price) (n : Bool)
    (hs : s.atl_price = none) :
    ∃ s', loop_cycle s (some p) n false =
        .ok (s', some (notify_new_atl p none)) ∧
      (notify_new_atl p none).header = "ARB TRACKER INITIALIZED" ∧
      (notify_new_atl p none).price = p ∧
      s'.atl_price = some p ∧ s'.file = .record p :=
  ⟨_, loop_cycle_init s p n hs, rfl, rfl, rfl, rfl⟩

theorem C10_witness :
    (⟨none, .absent, 0, 0, 0⟩ : LoopState).atl_price = none ∧
    ∃ s', loop_cycle ⟨none, .absent, 0, 0, 0⟩ (some 1) false false =
        .ok (s', some (notify_new_atl 1 none)) ∧
      (notify_new_atl (1 : Price) none).header = "ARB TRACKER INITIALIZED" ∧
      (notify_new_atl (1 : Price) none).price = 1 ∧
      s'.atl_price = some 1 ∧ s'.file = .record 1 :=
  ⟨rfl, C10_init_sends_notification ⟨none, .absent, 0, 0, 0⟩ 1 false rfl⟩

end ArbTracker
